import Mathlib

/-!
Verification development for `lj` (src/main.rs), a Real-Debrid magnet
downloader.  The definitions below are a shallow embedding of the program's
data model and operations: pure Rust helpers become Lean functions; the
effectful pieces (HTTP polling, the streaming worker, the dashboard) become
functions of explicit environments that carry the external inputs (responses,
chunk arrivals, liveness probes).  Machine integers (`u64`, `u32`) are
modelled as `Nat`; the program performs no wrapping arithmetic on them.
`f64` speed values are modelled as `Rat` (the program only ever divides a
byte count by a positive elapsed time, so no non-finite values arise).
-/

namespace LJ

/-- `DownloadStatus` from src/main.rs (lines 52-59). -/
inductive DownloadStatus where
  | Pending
  | Downloading
  | Completed
  | Failed (reason : String)
  | Cancelled
deriving DecidableEq, Repr

/-- The persisted `Download` record from src/main.rs (lines 38-50). -/
structure Download where
  id : String
  filename : String
  url : String
  target_dir : String
  total_bytes : Nat
  downloaded_bytes : Nat
  speed : Rat
  status : DownloadStatus
  started_at : Nat
  pid : Option Nat
deriving DecidableEq, Repr

/-- `TorrentFile` from src/main.rs (lines 80-87). -/
structure TorrentFile where
  id : Nat
  path : String
  bytes : Nat
  selected : Nat
deriving DecidableEq, Repr

/-- `TorrentInfo` from src/main.rs (lines 68-78); the remote job's polled
state.  `progress`, `speed`, `seeders` are display-only telemetry. -/
structure TorrentInfo where
  status : String
  files : Option (List TorrentFile)
  links : Option (List String)
  progress : Option Rat
  speed : Option Nat
  seeders : Option Nat

/-- Substring test on character lists: does `hay` contain `needle` as a
contiguous run?  Models Rust `str::contains` for the ASCII needles used by
the program. -/
def containsSub (needle : List Char) : List Char → Bool
  | [] => needle.isPrefixOf []
  | c :: t => needle.isPrefixOf (c :: t) || containsSub needle t

/-- Lower-casing of a string, character by character.  Models Rust
`str::to_lowercase`; `Char.toLower` agrees with it on ASCII, which is all
the program's needle ("sample") requires. -/
def lowerStr (s : String) : List Char :=
  s.toList.map Char.toLower

/-- The file-filtering predicate of `process_magnet` (src/main.rs lines
437-444): keep files whose lower-cased path does not contain "sample" and
whose size exceeds 1,000,000 bytes. -/
def validFiles (files : List TorrentFile) : List TorrentFile :=
  files.filter fun f =>
    !containsSub "sample".toList (lowerStr f.path) && decide (f.bytes > 1000000)

/-- The file-selection policy of `process_magnet` (src/main.rs lines
446-482).  `chosen` stands for the indices returned by the interactive
multi-select (the dialoguer collaborator always returns in-range indices,
so out-of-range entries are simply dropped here). -/
def selectTorrentFiles (files : List TorrentFile) (chosen : List Nat) :
    Except String (List Nat) :=
  match validFiles files with
  | [v] => .ok [v.id]
  | [] =>
    if files.isEmpty then .error "No files in torrent"
    else .ok (files.map (·.id))
  | _ =>
    if chosen.isEmpty then .error "No files selected"
    else .ok (chosen.filterMap fun i => ((validFiles files).get? i).map (·.id))

/-- The three-file example from the spec's testable properties. -/
def demoSample : TorrentFile := { id := 1, path := "sample.mkv", bytes := 500, selected := 0 }

/-- The large movie file of the spec's example. -/
def demoMovie : TorrentFile := { id := 2, path := "movie.mkv", bytes := 2000000, selected := 0 }

/-- The small metadata file of the spec's example. -/
def demoNfo : TorrentFile := { id := 3, path := "movie.nfo", bytes := 100, selected := 0 }

/-- The spec's example file list. -/
def demoFiles : List TorrentFile := [demoSample, demoMovie, demoNfo]

/-- The remote statuses that abort polling (src/main.rs lines 405-407). -/
def errorStatuses : List String := ["magnet_error", "dead", "error"]

/-- One polling iteration's outcome: the `get_torrent_info` response, or the
transport/parse error it surfaced. -/
abbrev PollFun := Nat → Except String TorrentInfo

/-- The loop body of `wait_for_download` (src/main.rs lines 383-426),
iteration by iteration.  `i` is the iteration index; elapsed wall-clock time
at the top of iteration `i` is `2*i` seconds (the 2-second sleep between
polls being the sole modelled time source), and the loop aborts once it
exceeds the 600-second bound.  The `fuel` argument only makes the recursion
structural; it is chosen large enough (302) that it is never exhausted
before the timeout check fires. -/
def wfdFrom (polls : PollFun) : Nat → Nat → Except String (List String)
  | _, 0 => .error "Timeout waiting for Real-Debrid to process"
  | i, fuel + 1 =>
    if 2 * i > 600 then .error "Timeout waiting for Real-Debrid to process"
    else
      match polls i with
      | .error e => .error e
      | .ok info =>
        if info.status = "downloaded" then
          match info.links with
          | some links => .ok links
          | none => .error "No links available"
        else if info.status ∈ errorStatuses then
          .error ("Torrent error: " ++ info.status)
        else
          wfdFrom polls (i + 1) fuel

/-- `wait_for_download` (src/main.rs lines 383-426): poll every 2 seconds
under a 600-second bound. -/
def waitForDownload (polls : PollFun) : Except String (List String) :=
  wfdFrom polls 0 302

/-- `UnrestrictResponse` from src/main.rs (lines 89-95), the fields the
pipeline consumes. -/
structure UnrestrictResp where
  filename : String
  download : String

/-- The external inputs consumed by one `process_magnet` invocation
(src/main.rs lines 428-519): the add-magnet result, the file list obtained
by `wait_for_files`, the interactive selection, the select-files result, the
completion polls, the per-link unrestrict results and the best-effort HEAD
content-length probe. -/
structure MagnetEnv where
  addRes : Except String String
  filesRes : Except String (List TorrentFile)
  chosen : List Nat
  selectRes : Except String Unit
  completionPolls : PollFun
  unrestrictRes : String → Except String UnrestrictResp
  headSize : String → Option Nat

/-- `process_magnet` (src/main.rs lines 428-519).  Returns the pipeline's
result together with the list of links on which link resolution
(`unrestrict_link`) was attempted; a per-link failure drops that link, and
the batch fails only when zero links resolved. -/
def processMagnet (env : MagnetEnv) :
    Except String (List (String × String × Nat)) × List String :=
  match env.addRes with
  | .error e => (.error e, [])
  | .ok _torrentId =>
    match env.filesRes with
    | .error e => (.error e, [])
    | .ok files =>
      match selectTorrentFiles files env.chosen with
      | .error e => (.error e, [])
      | .ok _ids =>
        match env.selectRes with
        | .error e => (.error e, [])
        | .ok _ =>
          match waitForDownload env.completionPolls with
          | .error e => (.error e, [])
          | .ok links =>
            let resolved := links.filterMap fun l =>
              match env.unrestrictRes l with
              | .ok u => some (u.filename, u.download, (env.headSize u.download).getD 0)
              | .error _ => none
            if resolved.isEmpty then (.error "No download links obtained", links)
            else (.ok resolved, links)

/-- The job record as `main` creates it after a link resolves (src/main.rs
lines 870-884): Pending, zero progress, no pid. -/
structure CreateArgs where
  idStr : String
  filename : String
  url : String
  dir : String
  size : Nat
  now : Nat

/-- Record creation in `main` (src/main.rs lines 870-887, persisted by the
`save_download` on line 887). -/
def createRec (ca : CreateArgs) : Download :=
  { id := ca.idStr, filename := ca.filename, url := ca.url, target_dir := ca.dir,
    total_bytes := ca.size, downloaded_bytes := 0, speed := 0,
    status := .Pending, started_at := ca.now, pid := none }

/-- The record `spawn_background_download` persists on a successful spawn
(src/main.rs lines 532-537): the parent's copy with `pid` the child's id and
status Downloading. -/
def spawnRecord (dl : Download) (childPid : Nat) : Download :=
  { dl with pid := some childPid, status := .Downloading }

/-- The record the worker persists right after reloading its job
(src/main.rs lines 554-556): status Downloading, `pid` the worker's own
process id. -/
def workerInitRec (dl : Download) (wpid : Nat) : Download :=
  { dl with status := .Downloading, pid := some wpid }

/-- One chunk arrival in the worker's streaming loop, together with the
wall-clock facts the loop reads at that point: whether 500 ms have elapsed
since the last checkpoint (`due`), whether the concurrent reload observes an
externally written Cancelled status (`cancelObserved`, consulted only when
`due`), and the elapsed seconds used for the speed estimate. -/
structure ChunkEvent where
  size : Nat
  due : Bool
  cancelObserved : Bool
  elapsedSec : Rat
deriving DecidableEq, Repr

/-- The GET response head consumed by the worker (src/main.rs lines
562-572). -/
structure HttpResp where
  ok : Bool
  statusText : String
  contentLength : Option Nat

/-- The external inputs of one `run_background_download` execution:
the GET outcome, whether file creation failed, the chunk stream, an optional
mid-stream/write error message (already formatted as by the `map_err`
closures on lines 584 and 586-588; such messages are never the bare string
"Cancelled" because they carry a "Download error: "/"Write error: " head),
and the worker's own pid. -/
structure WorkerEnv where
  resp : Except String HttpResp
  createFileError : Option String
  chunks : List ChunkEvent
  streamError : Option String
  wpid : Nat

/-- Result of the worker's chunk loop (src/main.rs lines 583-612): the
worker's in-memory record, the byte counter, the checkpoint records it
persisted, and whether it observed cancellation and aborted. -/
structure LoopOut where
  record : Download
  downloaded : Nat
  snapshots : List Download
  cancelled : Bool

/-- The record a progress checkpoint persists (src/main.rs lines 603-607):
current byte count, the effective total, and the throughput estimate since
the previous checkpoint. -/
def checkpointRec (rec : Download) (downloaded2 totalSize lastBytes : Nat)
    (elapsed : Rat) : Download :=
  { rec with downloaded_bytes := downloaded2, total_bytes := totalSize,
             speed := ((downloaded2 - lastBytes : Nat) : Rat) / elapsed }

/-- The worker's chunk loop (src/main.rs lines 583-612).  Each chunk is
appended to the file and counted; when a checkpoint is due the worker first
re-reads the record (aborting with the "Cancelled" error if the dashboard
cancelled the job) and otherwise persists progress and a speed estimate. -/
def workerLoop (totalSize : Nat) :
    Download → Nat → Nat → List ChunkEvent → LoopOut
  | rec, downloaded, _lastBytes, [] =>
    ⟨rec, downloaded, [], false⟩
  | rec, downloaded, lastBytes, ev :: rest =>
    let downloaded2 := downloaded + ev.size
    if ev.due then
      if ev.cancelObserved then
        ⟨rec, downloaded2, [], true⟩
      else
        let rec2 := checkpointRec rec downloaded2 totalSize lastBytes ev.elapsedSec
        let out := workerLoop totalSize rec2 downloaded2 downloaded2 rest
        ⟨out.record, out.downloaded, rec2 :: out.snapshots, out.cancelled⟩
    else
      workerLoop totalSize rec downloaded2 lastBytes rest

/-- The overall outcome of the worker's streaming block (the `async` block
result of src/main.rs lines 561-616): cancellation beats a trailing stream
error, which beats success. -/
def streamResult (out : LoopOut) (streamError : Option String) : Except String Unit :=
  if out.cancelled then .error "Cancelled"
  else
    match streamError with
    | some e => .error e
    | none => .ok ()

/-- The worker's terminal write (src/main.rs lines 618-636): on success the
record completes with `downloaded_bytes := total_bytes`; the exact error
string "Cancelled" marks cooperative cancellation (the partial file is
removed, flagged by the returned Bool); any other error is a Failed reason.
`speed` is zeroed and `pid` cleared in every case. -/
def terminalRec (rec : Download) (res : Except String Unit) : Download × Bool :=
  match res with
  | .ok _ =>
    ({ rec with status := .Completed, downloaded_bytes := rec.total_bytes,
                speed := 0, pid := none }, false)
  | .error e =>
    if e = "Cancelled" then
      ({ rec with status := .Cancelled, speed := 0, pid := none }, true)
    else
      ({ rec with status := .Failed e, speed := 0, pid := none }, false)

/-- What one worker execution persists and whether it deleted the partial
destination file. -/
structure WorkerResult where
  snapshots : List Download
  fileDeleted : Bool
deriving Repr

/-- `run_background_download` (src/main.rs lines 545-637) as a function of
the loaded record and the external inputs.  `stored = none` models a missing
job file: the worker prints and exits, persisting nothing.  `snapshots`
lists every `save_download` call in order: the initial Downloading write,
the periodic checkpoints, and the terminal write. -/
def workerRun (stored : Option Download) (env : WorkerEnv) : WorkerResult :=
  match stored with
  | none => ⟨[], false⟩
  | some dl0 =>
    let d1 := workerInitRec dl0 env.wpid
    let stage : Except String Unit × List Download × Download :=
      match env.resp with
      | .error e => (.error ("Request failed: " ++ e), [], d1)
      | .ok r =>
        if r.ok = false then
          (.error ("HTTP error: " ++ r.statusText), [], d1)
        else
          match env.createFileError with
          | some e => (.error ("Failed to create file: " ++ e), [], d1)
          | none =>
            let out := workerLoop (r.contentLength.getD d1.total_bytes) d1 0 0 env.chunks
            (streamResult out env.streamError, out.snapshots, out.record)
    let t := terminalRec stage.2.2 stage.1
    ⟨d1 :: stage.2.1 ++ [t.1], t.2⟩

/-- Dashboard dead-process repair (src/main.rs lines 644-658): for a
Downloading record whose recorded pid fails the liveness probe, mark
Completed when `downloaded_bytes ≥ total_bytes > 0` and Failed("Process
died") otherwise, clear the pid and persist.  Returns the (possibly
repaired) record and whether it was persisted. -/
def dashboardRepair (dl : Download) (alive : Bool) : Download × Bool :=
  if dl.status = .Downloading then
    match dl.pid with
    | some _ =>
      if alive then (dl, false)
      else if dl.downloaded_bytes ≥ dl.total_bytes ∧ dl.total_bytes > 0 then
        ({ dl with status := .Completed, pid := none }, true)
      else
        ({ dl with status := .Failed "Process died", pid := none }, true)
    | none => (dl, false)
  else (dl, false)

/-- Outcome of the dashboard's cancel action: the resulting record, whether
it was persisted, whether the action removed any file (the dashboard never
touches the destination file), and the pid that was sent SIGTERM. -/
structure CancelOutcome where
  record : Download
  saved : Bool
  fileRemoved : Bool
  signalSent : Option Nat
deriving DecidableEq, Repr

/-- The dashboard's `c<n>` cancel action on the freshly reloaded record
(src/main.rs lines 759-773): only a Downloading record is changed — status
Cancelled, SIGTERM to the recorded pid, pid cleared, persisted.  No file is
removed here. -/
def dashboardCancel (dl : Download) : CancelOutcome :=
  if dl.status = .Downloading then
    ⟨{ dl with status := .Cancelled, pid := none }, true, false, dl.pid⟩
  else
    ⟨dl, false, false, none⟩

/-- The value level of the JSON documents `save_download` writes and
`load_download` parses (the serde_json collaborator maps these values to and
from text; its text layer round-trips every value below). -/
inductive Json where
  | null
  | num (q : Rat)
  | str (s : String)
  | arr (xs : List Json)
  | obj (fields : List (String × Json))

/-- First binding of a key in a JSON object's field list. -/
def jsonLookup (fields : List (String × Json)) (k : String) : Option Json :=
  match fields with
  | [] => none
  | (k2, v) :: rest => if k2 = k then some v else jsonLookup rest k

/-- Read a JSON value as a string. -/
def jsonAsStr : Json → Option String
  | .str s => some s
  | _ => none

/-- Read a JSON value as an unsigned integer (serde rejects fractional or
negative numbers for `u64` fields). -/
def jsonAsNat : Json → Option Nat
  | .num q => if q.den = 1 ∧ 0 ≤ q.num then some q.num.toNat else none
  | _ => none

/-- Read a JSON value as a number (the `f64` field). -/
def jsonAsRat : Json → Option Rat
  | .num q => some q
  | _ => none

/-- Serde's externally tagged encoding of `DownloadStatus`: unit variants
become strings, `Failed(reason)` becomes a one-field object. -/
def encodeStatus : DownloadStatus → Json
  | .Pending => .str "Pending"
  | .Downloading => .str "Downloading"
  | .Completed => .str "Completed"
  | .Failed e => .obj [("Failed", .str e)]
  | .Cancelled => .str "Cancelled"

/-- Decoding of the externally tagged `DownloadStatus`. -/
def decodeStatus : Json → Option DownloadStatus
  | .str "Pending" => some .Pending
  | .str "Downloading" => some .Downloading
  | .str "Completed" => some .Completed
  | .str "Cancelled" => some .Cancelled
  | .obj [("Failed", .str e)] => some (.Failed e)
  | _ => none

/-- Serde's encoding of the `Download` record (field order as declared;
`Option<u32>` maps to null or a number). -/
def encodeDownload (d : Download) : Json :=
  .obj [("id", .str d.id),
        ("filename", .str d.filename),
        ("url", .str d.url),
        ("target_dir", .str d.target_dir),
        ("total_bytes", .num d.total_bytes),
        ("downloaded_bytes", .num d.downloaded_bytes),
        ("speed", .num d.speed),
        ("status", encodeStatus d.status),
        ("started_at", .num d.started_at),
        ("pid", match d.pid with | some p => .num p | none => .null)]

/-- Decoding of an optional pid. -/
def decodePid : Json → Option (Option Nat)
  | .null => some none
  | .num q => (jsonAsNat (.num q)).map some
  | _ => none

/-- Decoding of a `Download` record from a JSON value; any missing or
ill-typed field makes the whole parse fail, which `load_download` reports as
`None`. -/
def decodeDownload : Json → Option Download
  | .obj fields => do
    let id ← (jsonLookup fields "id").bind jsonAsStr
    let filename ← (jsonLookup fields "filename").bind jsonAsStr
    let url ← (jsonLookup fields "url").bind jsonAsStr
    let target_dir ← (jsonLookup fields "target_dir").bind jsonAsStr
    let total_bytes ← (jsonLookup fields "total_bytes").bind jsonAsNat
    let downloaded_bytes ← (jsonLookup fields "downloaded_bytes").bind jsonAsNat
    let speed ← (jsonLookup fields "speed").bind jsonAsRat
    let status ← (jsonLookup fields "status").bind decodeStatus
    let started_at ← (jsonLookup fields "started_at").bind jsonAsNat
    let pid ← (jsonLookup fields "pid").bind decodePid
    pure { id, filename, url, target_dir, total_bytes, downloaded_bytes,
           speed, status, started_at, pid }
  | _ => none

/-- The on-disk job store: one JSON document per job id (the file
`<id>.json`); earlier entries shadow later ones, so prepending is the
create-or-overwrite of `save_download`. -/
def JobStore := List (String × Json)

/-- `save_download` (src/main.rs lines 141-147): serialize and overwrite the
job's file. -/
def saveDownload (store : JobStore) (d : Download) : JobStore :=
  (d.id, encodeDownload d) :: store

/-- `load_download` (src/main.rs lines 149-157): a missing file or a failed
parse yields `none`. -/
def loadDownload (store : JobStore) (id : String) : Option Download :=
  (List.lookup id store).bind decodeDownload

/-- Rust `str::is_char_boundary` on a UTF-8 byte sequence: index 0 and the
total length are boundaries; an interior index is a boundary exactly when
the byte there is not a continuation byte (`0x80..=0xBF`). -/
def isUtf8Boundary (bs : List Nat) (i : Nat) : Bool :=
  if i = 0 ∨ i = bs.length then true
  else
    match bs.get? i with
    | some b => decide (b < 128 ∨ 192 ≤ b)
    | none => false

/-- Rust byte slicing `&s[..i]`: defined (as the first `i` bytes) when `i`
is a char boundary, a panic (`none`) otherwise. -/
def byteSliceTo (bs : List Nat) (i : Nat) : Option (List Nat) :=
  if isUtf8Boundary bs i then some (bs.take i) else none

/-- UTF-8 encoding of one code point. -/
def utf8EncodeChar (c : Nat) : List Nat :=
  if c < 128 then [c]
  else if c < 2048 then [192 + c / 64, 128 + c % 64]
  else if c < 65536 then [224 + c / 4096, 128 + (c / 64) % 64, 128 + c % 64]
  else [240 + c / 262144, 128 + (c / 4096) % 64, 128 + (c / 64) % 64, 128 + c % 64]

/-- UTF-8 encoding of a sequence of code points (the byte view of a Rust
`String`). -/
def utf8Encode (cps : List Nat) : List Nat :=
  (cps.map utf8EncodeChar).flatten

/-- The id construction of `main` (src/main.rs lines 861-868): the
millisecond timestamp, a dash, and the byte slice
`&filename[..filename.len().min(10)]` of the resolved filename.  The result
is `none` exactly when that byte slice panics. -/
def mkDownloadId (nowMillis : Nat) (fnBytes : List Nat) : Option (List Nat) :=
  (byteSliceTo fnBytes (min fnBytes.length 10)).map fun t =>
    ((toString nowMillis).toList.map Char.toNat) ++ [45] ++ t

/-- The pid invariant of the spec: a pid is recorded exactly while the
status is Downloading. -/
def pidInv (d : Download) : Prop :=
  d.pid.isSome ↔ d.status = .Downloading

instance (d : Download) : Decidable (pidInv d) := by
  unfold pidInv; infer_instance

/-- The byte-counter invariant of the spec: once the total is known
(non-zero), the progress counter never exceeds it. -/
def bytesInv (d : Download) : Prop :=
  d.total_bytes > 0 → d.downloaded_bytes ≤ d.total_bytes

instance (d : Download) : Decidable (bytesInv d) := by
  unfold bytesInv; infer_instance

/-- Position of a status in the lifecycle chain
Pending → Downloading → terminal. -/
def statusRank : DownloadStatus → Nat
  | .Pending => 0
  | .Downloading => 1
  | _ => 2

/-- Terminal statuses: Completed, Failed, Cancelled. -/
def isTerminalStatus : DownloadStatus → Bool
  | .Completed => true
  | .Failed _ => true
  | .Cancelled => true
  | _ => false

/-- A persisted-status sequence is a (stuttering) subsequence of the chain
Pending → Downloading → one terminal status: ranks never decrease and a
terminal status is never followed by a different status. -/
def chainOk : List DownloadStatus → Bool
  | [] => true
  | [_] => true
  | a :: b :: t =>
    (decide (statusRank a ≤ statusRank b) && (!isTerminalStatus a || a == b))
      && chainOk (b :: t)

/-- Total size of a chunk list. -/
def chunkTotal (evs : List ChunkEvent) : Nat :=
  (evs.map (·.size)).sum

/-- The effective total size the worker works against (src/main.rs line
572): the GET response's content length when present, else the stored
estimate. -/
def effTotal (dl : Download) (env : WorkerEnv) : Nat :=
  match env.resp with
  | .ok r => r.contentLength.getD dl.total_bytes
  | .error _ => dl.total_bytes

/-- A fragment of the system's concurrent behaviour around one job, for the
status-transition claim.  The persisted record is the only shared state;
`log` collects the status of every persisted write in order.  `parentPhase`
tracks the spawning flow (0 = before the create write on src/main.rs line
887, 1 = before the spawn write on line 537, 2 = done); `workerLoaded`
records the snapshot the worker's `load_download` (line 546) returned, once
it ran; `workerWrote` records whether the worker's initial write (line 556)
happened. -/
structure Sys where
  store : Option Download
  log : List DownloadStatus
  parentPhase : Nat
  workerLoaded : Option (Option Download)
  workerWrote : Bool

/-- The initial system state: nothing persisted, nothing run. -/
def sysInit : Sys := ⟨none, [], 0, none, false⟩

/-- An under-approximate small-step semantics of the spawning flow, the
worker's start-up, and the dashboard's cancel action interleaving over the
shared persisted record.  Every step is faithful to the code: `create` and
`spawnWrite` are the parent's two writes (the parent writes its own
in-memory copy, not the current store); `dashCancel` is the dashboard's
read-check-write (src/main.rs lines 759-771), enabled only when the current
record is Downloading; `workerLoad` and `workerInitWrite` are the worker's
reload and unconditional Downloading write (lines 546-556) — the OS may
schedule the worker and the dashboard in either order once the job is
spawned, and the SIGTERM sent by the dashboard is best-effort, so the worker
may still perform its write afterwards.  Only the steps needed for the
claims are modelled; omitting steps only shrinks the set of reachable
traces. -/
inductive SysStep (ca : CreateArgs) (childPid wpid : Nat) : Sys → Sys → Prop where
  | create (s : Sys) (h : s.parentPhase = 0) :
      SysStep ca childPid wpid s
        ⟨some (createRec ca), s.log ++ [(createRec ca).status], 1,
         s.workerLoaded, s.workerWrote⟩
  | spawnWrite (s : Sys) (h : s.parentPhase = 1) :
      SysStep ca childPid wpid s
        ⟨some (spawnRecord (createRec ca) childPid),
         s.log ++ [(spawnRecord (createRec ca) childPid).status], 2,
         s.workerLoaded, s.workerWrote⟩
  | dashCancel (s : Sys) (r : Download) (h : s.store = some r)
      (hd : r.status = .Downloading) :
      SysStep ca childPid wpid s
        ⟨some (dashboardCancel r).record,
         s.log ++ [(dashboardCancel r).record.status], s.parentPhase,
         s.workerLoaded, s.workerWrote⟩
  | workerLoad (s : Sys) (h : s.workerLoaded = none) (hp : s.parentPhase = 2) :
      SysStep ca childPid wpid s
        ⟨s.store, s.log, s.parentPhase, some s.store, s.workerWrote⟩
  | workerInitWrite (s : Sys) (r : Download) (h : s.workerLoaded = some (some r))
      (hw : s.workerWrote = false) :
      SysStep ca childPid wpid s
        ⟨some (workerInitRec r wpid),
         s.log ++ [(workerInitRec r wpid).status], s.parentPhase,
         s.workerLoaded, true⟩

/-- A stored record before the worker runs: total size 100 bytes from the
best-effort HEAD probe, nothing downloaded yet. -/
def c2Stored : Download :=
  { id := "j1", filename := "f.bin", url := "http://u", target_dir := "/d",
    total_bytes := 100, downloaded_bytes := 0, speed := 0,
    status := .Pending, started_at := 0, pid := none }

/-- A worker environment whose GET response carries no content length and
whose stream delivers 200 bytes — more than the stored 100-byte estimate —
before the first checkpoint. -/
def c2Env : WorkerEnv :=
  { resp := .ok { ok := true, statusText := "200 OK", contentLength := none },
    createFileError := none,
    chunks := [{ size := 200, due := true, cancelObserved := false, elapsedSec := 1 }],
    streamError := none, wpid := 9 }

/-- A Downloading record used to witness invariant preservation. -/
def c2LiveJob : Download :=
  { id := "j2", filename := "g.bin", url := "http://v", target_dir := "/d",
    total_bytes := 1000, downloaded_bytes := 500, speed := 10,
    status := .Downloading, started_at := 1, pid := some 12 }

/-- A Downloading record used to witness the pid invariant. -/
def c3LiveJob : Download :=
  { id := "j3", filename := "h.bin", url := "http://w", target_dir := "/d",
    total_bytes := 4000, downloaded_bytes := 100, speed := 5,
    status := .Downloading, started_at := 2, pid := some 77 }

/-- The creation arguments of the C4 race scenario. -/
def c4Args : CreateArgs :=
  { idStr := "j4", filename := "m.mkv", url := "http://x", dir := "/d",
    size := 50, now := 3 }

/-- The final state of the C4 race: created, spawn-written, cancelled by the
dashboard, then overwritten by the worker's unconditional Downloading
write. -/
def c4Bad : Sys :=
  ⟨some (workerInitRec (dashboardCancel (spawnRecord (createRec c4Args) 7)).record 8),
   [.Pending, .Downloading, .Cancelled, .Downloading], 2,
   some (some (dashboardCancel (spawnRecord (createRec c4Args) 7)).record), true⟩

/-- A Downloading record used to witness the cancel guard. -/
def c4LiveJob : Download :=
  { id := "j4b", filename := "n.mkv", url := "http://y", target_dir := "/d",
    total_bytes := 10, downloaded_bytes := 1, speed := 1,
    status := .Downloading, started_at := 4, pid := some 21 }

/-- A completion poll whose response is `downloaded` with a present but
empty link list. -/
def c5Info : TorrentInfo :=
  { status := "downloaded", files := none, links := some [],
    progress := none, speed := none, seeders := none }

/-- The poll stream that always answers with `c5Info`. -/
def c5Polls : PollFun := fun _ => .ok c5Info

/-- A completion poll whose response is `downloaded` with no link list. -/
def c5NoLinks : TorrentInfo :=
  { status := "downloaded", files := none, links := none,
    progress := none, speed := none, seeders := none }

/-- The poll stream that always answers with `c5NoLinks`. -/
def c5PollsNone : PollFun := fun _ => .ok c5NoLinks

/-- A dead Downloading record whose progress is short of its total:
the spec's 2000-of-5000 reconciliation example. -/
def c6DeadShort : Download :=
  { id := "j6", filename := "p.mkv", url := "http://z", target_dir := "/d",
    total_bytes := 5000, downloaded_bytes := 2000, speed := 0,
    status := .Downloading, started_at := 5, pid := some 4242 }

/-- A dead Downloading record whose progress reached its total:
the spec's 5000-of-5000 reconciliation example. -/
def c6DeadDone : Download :=
  { id := "j6b", filename := "q.mkv", url := "http://z2", target_dir := "/d",
    total_bytes := 5000, downloaded_bytes := 5000, speed := 0,
    status := .Downloading, started_at := 6, pid := some 4243 }

/-- A Downloading record being cancelled from the dashboard. -/
def c7Job : Download :=
  { id := "j7", filename := "r.mkv", url := "http://r", target_dir := "/d",
    total_bytes := 300, downloaded_bytes := 50, speed := 2,
    status := .Downloading, started_at := 7, pid := some 31 }

/-- A worker run during which no checkpoint falls due, so the externally
written Cancelled status is never observed. -/
def c7EnvUnseen : WorkerEnv :=
  { resp := .ok { ok := true, statusText := "200 OK", contentLength := some 300 },
    createFileError := none,
    chunks := [{ size := 300, due := false, cancelObserved := false, elapsedSec := 1 }],
    streamError := none, wpid := 31 }

/-- The GET response of the cooperative-cancellation witness run. -/
def c7Resp : HttpResp := { ok := true, statusText := "200 OK", contentLength := some 300 }

/-- A worker run whose first checkpoint observes the Cancelled status. -/
def c7EnvSeen : WorkerEnv :=
  { resp := .ok c7Resp, createFileError := none,
    chunks := [{ size := 100, due := true, cancelObserved := true, elapsedSec := 1 }],
    streamError := none, wpid := 31 }

/-- The single valid file of the C8 timeout scenario. -/
def c8Files : List TorrentFile :=
  [{ id := 11, path := "big.mkv", bytes := 5000000, selected := 0 }]

/-- Completion polls that are forever stuck on `queued`. -/
def c8Polls : PollFun := fun _ =>
  .ok { status := "queued", files := none, links := none,
        progress := none, speed := none, seeders := none }

/-- A pipeline environment that reaches completion polling and then never
sees a terminal remote status. -/
def c8Env : MagnetEnv :=
  { addRes := .ok "T1", filesRes := .ok c8Files, chosen := [],
    selectRes := .ok (), completionPolls := c8Polls,
    unrestrictRes := fun _ => .error "unreached", headSize := fun _ => none }

/-- The UTF-8 bytes of the filename "aaaaaaaaa€": nine ASCII bytes followed
by the three-byte encoding of the euro sign, whose continuation bytes span
byte index 10. -/
def c10BadName : List Nat :=
  utf8Encode [97, 97, 97, 97, 97, 97, 97, 97, 97, 8364]

/-- The UTF-8 bytes of a short ASCII filename. -/
def c10GoodName : List Nat := utf8Encode [97, 98, 99]

/-- The worker's initial write keeps the stored total-byte estimate. -/
theorem workerInitRec_total_bytes (dl : Download) (w : Nat) :
    (workerInitRec dl w).total_bytes = dl.total_bytes := rfl

/-- Decoding a natural-number JSON value recovers the number. -/
theorem jsonAsNat_natCast (n : Nat) : jsonAsNat (.num (n : Rat)) = some n := by
  simp [jsonAsNat]

/-- Decoding the encoding of a record recovers the record, field by
field. -/
theorem decodeDownload_encodeDownload (d : Download) :
    decodeDownload (encodeDownload d) = some d := by
  obtain ⟨i, f, u, td, tb, db, sp, st, sa, pid⟩ := d
  cases st <;> cases pid <;>
    simp [encodeDownload, decodeDownload, encodeStatus, decodeStatus, decodePid,
      jsonLookup, jsonAsStr, jsonAsRat, jsonAsNat_natCast]

/-- C9: for every job record and store contents, saving the record and then
loading it by its id yields `some` record equal in every field to the one
saved. -/
theorem C9_save_load_roundtrip (store : JobStore) (d : Download) :
    loadDownload (saveDownload store d) d.id = some d := by
  have h : List.lookup d.id ((d.id, encodeDownload d) :: store)
      = some (encodeDownload d) := by
    simp [List.lookup]
  show (List.lookup d.id ((d.id, encodeDownload d) :: store)).bind decodeDownload
      = some d
  rw [h]
  exact decodeDownload_encodeDownload d

/-- C1: the valid subset excludes every file whose lower-cased path contains
"sample" and whose size is at most 1,000,000 bytes; on the spec's example
list the valid subset is exactly the movie file and the single-file
auto-select path selects exactly its id. -/
theorem C1_file_filtering :
    (∀ (files : List TorrentFile) (f : TorrentFile), f ∈ files →
        containsSub "sample".toList (lowerStr f.path) = true →
        f.bytes ≤ 1000000 → f ∉ validFiles files) ∧
    validFiles demoFiles = [demoMovie] ∧
    selectTorrentFiles demoFiles [] = .ok [demoMovie.id] := by
  refine ⟨?_, by decide, rfl⟩
  intro files f _hf hcontains _hsize hmem
  unfold validFiles at hmem
  have h2 := (List.mem_filter.mp hmem).2
  rw [Bool.and_eq_true] at h2
  have h3 := h2.1
  rw [Bool.not_eq_true'] at h3
  rw [hcontains] at h3
  exact absurd h3 (by decide)

/-- C1 witness: the sample file of the example list is excluded. -/
theorem C1_file_filtering_witness : demoSample ∉ validFiles demoFiles :=
  C1_file_filtering.1 demoFiles demoSample (by decide) (by decide) (by decide)

/-- C10: building the job id byte-slices the filename at
`min(len, 10)`; the slice is total exactly when that index is a UTF-8 char
boundary, and the valid UTF-8 filename "aaaaaaaaa€" (a euro sign spanning
byte index 10) makes job creation panic. -/
theorem C10_id_byte_slicing :
    (∀ (m : Nat) (fn : List Nat),
        (mkDownloadId m fn).isSome = true ↔
          isUtf8Boundary fn (min fn.length 10) = true) ∧
    c10BadName = utf8Encode [97, 97, 97, 97, 97, 97, 97, 97, 97, 8364] ∧
    isUtf8Boundary c10BadName 10 = false ∧
    mkDownloadId 0 c10BadName = none := by
  refine ⟨?_, rfl, by decide, by decide⟩
  intro m fn
  unfold mkDownloadId byteSliceTo
  by_cases h : isUtf8Boundary fn (min fn.length 10) = true
  · simp [h]
  · simp [h]

/-- C10 witness: a short ASCII filename slices without panicking. -/
theorem C10_id_byte_slicing_witness :
    (mkDownloadId 0 c10GoodName).isSome = true :=
  (C10_id_byte_slicing.1 0 c10GoodName).mpr (by decide)

/-- C6 (amended): a Downloading job whose recorded pid fails the liveness
probe is repaired and persisted: Completed when
`downloaded_bytes ≥ total_bytes > 0`, else Failed "Process died" (the code's
reason string is capitalised, unlike the claim's "process died"), with pid
cleared. -/
theorem C6_dead_worker_repair (dl : Download) (p : Nat)
    (hs : dl.status = .Downloading) (hp : dl.pid = some p) :
    (dashboardRepair dl false).2 = true ∧
    (dashboardRepair dl false).1.pid = none ∧
    (dashboardRepair dl false).1.status =
      (if dl.downloaded_bytes ≥ dl.total_bytes ∧ dl.total_bytes > 0
       then DownloadStatus.Completed
       else DownloadStatus.Failed "Process died") := by
  by_cases hc : dl.downloaded_bytes ≥ dl.total_bytes ∧ dl.total_bytes > 0
  · simp [dashboardRepair, hs, hp, hc]
  · simp [dashboardRepair, hs, hp, hc]

/-- C6 counterexample: the repair of the spec's 2000-of-5000 dead job writes
the reason string "Process died", not the claimed "process died". -/
theorem C6_reason_string_counterexample :
    (dashboardRepair c6DeadShort false).2 = true ∧
    (dashboardRepair c6DeadShort false).1.status =
      DownloadStatus.Failed "Process died" ∧
    (dashboardRepair c6DeadShort false).1.status ≠
      DownloadStatus.Failed "process died" := by
  refine ⟨by decide, by decide, by decide⟩

/-- C6 witness: the 5000-of-5000 dead job is repaired to Completed. -/
theorem C6_dead_worker_repair_witness :
    (dashboardRepair c6DeadDone false).2 = true ∧
    (dashboardRepair c6DeadDone false).1.pid = none ∧
    (dashboardRepair c6DeadDone false).1.status =
      (if c6DeadDone.downloaded_bytes ≥ c6DeadDone.total_bytes ∧
          c6DeadDone.total_bytes > 0
       then DownloadStatus.Completed
       else DownloadStatus.Failed "Process died") :=
  C6_dead_worker_repair c6DeadDone 4243 rfl rfl

/-- C7 (amended): dashboard cancel of a Downloading job sets status
Cancelled and clears pid and persists, but removes no file itself;
cancelling a Completed job is a no-op; the partial file is removed by the
worker when (and only through) its periodic checkpoint observing the
Cancelled status. -/
theorem C7_cancel_behavior :
    (∀ dl : Download, dl.status = .Downloading →
        dashboardCancel dl =
          ⟨{ dl with status := .Cancelled, pid := none }, true, false, dl.pid⟩) ∧
    (∀ dl : Download, dl.status = .Completed →
        dashboardCancel dl = ⟨dl, false, false, none⟩) ∧
    (∀ (dl : Download) (env : WorkerEnv) (r : HttpResp),
        env.resp = .ok r → r.ok = true → env.createFileError = none →
        (workerLoop (r.contentLength.getD dl.total_bytes)
            (workerInitRec dl env.wpid) 0 0 env.chunks).cancelled = true →
        (workerRun (some dl) env).fileDeleted = true) := by
  refine ⟨?_, ?_, ?_⟩
  · intro dl h
    simp [dashboardCancel, h]
  · intro dl h
    simp [dashboardCancel, h]
  · intro dl env r hresp hok hcf hcan
    simp [workerRun, hresp, hok, hcf, streamResult, terminalRec,
      workerInitRec_total_bytes, hcan]

/-- C7 counterexample: a Downloading job is cancelled from the dashboard,
yet in an execution whose worker never reaches a due checkpoint neither the
dashboard nor the worker removes the partial file. -/
theorem C7_no_file_removal_counterexample :
    (dashboardCancel c7Job).record.status = .Cancelled ∧
    (dashboardCancel c7Job).record.pid = none ∧
    (dashboardCancel c7Job).fileRemoved = false ∧
    (workerRun (some c7Job) c7EnvUnseen).fileDeleted = false := by
  refine ⟨by decide, by decide, by decide, by decide⟩

/-- C7 witness: a worker whose checkpoint observes cancellation removes the
partial file. -/
theorem C7_cancel_behavior_witness :
    (workerRun (some c7Job) c7EnvSeen).fileDeleted = true :=
  C7_cancel_behavior.2.2 c7Job c7EnvSeen c7Resp rfl rfl rfl (by decide)

/-- One-step unfolding of the completion-polling loop. -/
theorem wfdFrom_succ (polls : PollFun) (i fuel : Nat) :
    wfdFrom polls i (fuel + 1) =
      if 2 * i > 600 then .error "Timeout waiting for Real-Debrid to process"
      else
        match polls i with
        | .error e => .error e
        | .ok info =>
          if info.status = "downloaded" then
            match info.links with
            | some links => .ok links
            | none => .error "No links available"
          else if info.status ∈ errorStatuses then
            .error ("Torrent error: " ++ info.status)
          else
            wfdFrom polls (i + 1) fuel := rfl

/-- If every in-budget poll answers with a non-terminal status, the
completion loop times out. -/
theorem wfdFrom_timeout (polls : PollFun)
    (hpolls : ∀ j, 2 * j ≤ 600 →
        ∃ info, polls j = .ok info ∧ info.status ≠ "downloaded" ∧
          info.status ∉ errorStatuses) :
    ∀ fuel i, wfdFrom polls i fuel =
      .error "Timeout waiting for Real-Debrid to process" := by
  intro fuel
  induction fuel with
  | zero => intro i; rfl
  | succ fuel ih =>
    intro i
    rw [wfdFrom_succ]
    by_cases h : 2 * i > 600
    · rw [if_pos h]
    · rw [if_neg h]
      obtain ⟨info, hp, hnd, hne⟩ := hpolls i (by omega)
      simp only [hp, if_neg hnd, if_neg hne]
      exact ih (i + 1)

/-- If the polls up to step `k` are non-terminal and step `k` (inside the
600-second budget) answers `downloaded`, the loop's result is decided by
the presence of the link list at step `k`. -/
theorem wfdFrom_reach (polls : PollFun) (info : TorrentInfo) (k : Nat)
    (hk : 2 * k ≤ 600) (hpoll : polls k = .ok info)
    (hstat : info.status = "downloaded") :
    ∀ fuel i, 302 ≤ i + fuel → i ≤ k →
    (∀ j, i ≤ j → j < k →
        ∃ inf2, polls j = .ok inf2 ∧ inf2.status ≠ "downloaded" ∧
          inf2.status ∉ errorStatuses) →
    wfdFrom polls i fuel =
      (match info.links with
       | some l => .ok l
       | none => .error "No links available") := by
  intro fuel
  induction fuel with
  | zero =>
    intro i hif hik _
    exfalso
    omega
  | succ fuel ih =>
    intro i hif hik hbefore
    rw [wfdFrom_succ]
    have h2i : ¬ 2 * i > 600 := by omega
    rw [if_neg h2i]
    by_cases heq : i = k
    · subst heq
      simp only [hpoll, if_pos hstat]
    · have hlt : i < k := lt_of_le_of_ne hik heq
      obtain ⟨inf2, hp, hnd, hne⟩ := hbefore i le_rfl hlt
      simp only [hp, if_neg hnd, if_neg hne]
      exact ih (i + 1) (by omega) (by omega)
        (fun j hj1 hj2 => hbefore j (by omega) hj2)

/-- C5 (amended): reaching remote status "downloaded" within the budget,
after non-terminal polls, ends the phase successfully with the link list
whenever the list is present — even when it is empty — and yields the error
"No links available" exactly when the list is absent from the response. -/
theorem C5_downloaded_links (polls : PollFun) (info : TorrentInfo) (k : Nat)
    (hk : 2 * k ≤ 600)
    (hbefore : ∀ j, j < k →
        ∃ inf2, polls j = .ok inf2 ∧ inf2.status ≠ "downloaded" ∧
          inf2.status ∉ errorStatuses)
    (hpoll : polls k = .ok info) (hstat : info.status = "downloaded") :
    waitForDownload polls =
      (match info.links with
       | some l => .ok l
       | none => .error "No links available") :=
  wfdFrom_reach polls info k hk hpoll hstat 302 0 (by omega) (by omega)
    (fun j _ hj => hbefore j hj)

/-- C5 counterexample: a "downloaded" response whose link list is present
but empty makes the phase succeed with the empty list instead of returning
the "No links available" error the claim predicts. -/
theorem C5_empty_links_counterexample :
    c5Info.links = some [] ∧
    waitForDownload c5Polls = .ok [] ∧
    waitForDownload c5Polls ≠ .error "No links available" := by
  refine ⟨rfl, rfl, ?_⟩
  intro h
  rw [show waitForDownload c5Polls = .ok [] from rfl] at h
  exact Except.noConfusion h

/-- C5 witness: an absent link list on "downloaded" yields the error. -/
theorem C5_downloaded_links_witness :
    waitForDownload c5PollsNone = .error "No links available" :=
  C5_downloaded_links c5PollsNone c5NoLinks 0 (by omega)
    (fun j hj => absurd hj (by omega)) rfl rfl

/-- C8: if no in-budget completion poll answers a terminal remote status,
the await-completion phase returns the timeout error, the whole magnet
pipeline reports that same error, and no link resolution is attempted. -/
theorem C8_completion_timeout (env : MagnetEnv) (tid : String)
    (files : List TorrentFile) (ids : List Nat)
    (hadd : env.addRes = .ok tid) (hfiles : env.filesRes = .ok files)
    (hsel : selectTorrentFiles files env.chosen = .ok ids)
    (hselres : env.selectRes = .ok ())
    (hpolls : ∀ j, 2 * j ≤ 600 →
        ∃ info, env.completionPolls j = .ok info ∧ info.status ≠ "downloaded" ∧
          info.status ∉ errorStatuses) :
    waitForDownload env.completionPolls =
      .error "Timeout waiting for Real-Debrid to process" ∧
    processMagnet env =
      (.error "Timeout waiting for Real-Debrid to process", []) := by
  have hw : waitForDownload env.completionPolls =
      .error "Timeout waiting for Real-Debrid to process" :=
    wfdFrom_timeout env.completionPolls hpolls 302 0
  refine ⟨hw, ?_⟩
  simp only [processMagnet, hadd, hfiles, hsel, hselres, hw]

/-- C8 witness: a pipeline stuck on "queued" reports the timeout and
attempts no unrestrict call. -/
theorem C8_completion_timeout_witness :
    waitForDownload c8Env.completionPolls =
      .error "Timeout waiting for Real-Debrid to process" ∧
    processMagnet c8Env =
      (.error "Timeout waiting for Real-Debrid to process", []) :=
  C8_completion_timeout c8Env "T1" c8Files [11] rfl rfl rfl rfl
    (fun j _ => ⟨_, rfl, by decide, by decide⟩)

/-- A chunk list's total splits over its head. -/
theorem chunkTotal_cons (ev : ChunkEvent) (rest : List ChunkEvent) :
    chunkTotal (ev :: rest) = ev.size + chunkTotal rest := by
  simp [chunkTotal]

/-- Structural facts about the worker's chunk loop: every checkpoint record
keeps the carried record's status and pid, writes the effective total into
`total_bytes`, and its byte counter is bounded by the bytes consumed; the
final carried record is either the incoming record or checkpoint-shaped. -/
theorem workerLoop_facts (ts : Nat) (evs : List ChunkEvent) :
    ∀ (r : Download) (dl lb : Nat),
      (∀ s ∈ (workerLoop ts r dl lb evs).snapshots,
          s.status = r.status ∧ s.pid = r.pid ∧ s.total_bytes = ts ∧
          s.downloaded_bytes ≤ dl + chunkTotal evs) ∧
      ((workerLoop ts r dl lb evs).record.status = r.status ∧
       (workerLoop ts r dl lb evs).record.pid = r.pid ∧
       ((workerLoop ts r dl lb evs).record = r ∨
        ((workerLoop ts r dl lb evs).record.total_bytes = ts ∧
         (workerLoop ts r dl lb evs).record.downloaded_bytes ≤
           dl + chunkTotal evs))) := by
  induction evs with
  | nil =>
    intro r dl lb
    refine ⟨?_, rfl, rfl, Or.inl rfl⟩
    intro s hs
    simp [workerLoop] at hs
  | cons ev rest ih =>
    intro r dl lb
    cases hdue : ev.due with
    | false =>
      have hsr : (workerLoop ts r dl lb (ev :: rest)).snapshots =
          (workerLoop ts r (dl + ev.size) lb rest).snapshots := by
        simp [workerLoop, hdue]
      have hrr : (workerLoop ts r dl lb (ev :: rest)).record =
          (workerLoop ts r (dl + ev.size) lb rest).record := by
        simp [workerLoop, hdue]
      rw [hsr, hrr, chunkTotal_cons]
      obtain ⟨hsnap, hst, hpid, hrec⟩ := ih r (dl + ev.size) lb
      refine ⟨?_, hst, hpid, ?_⟩
      · intro s hs
        obtain ⟨h1, h2, h3, h4⟩ := hsnap s hs
        exact ⟨h1, h2, h3, by omega⟩
      · rcases hrec with h | ⟨h1, h2⟩
        · exact Or.inl h
        · exact Or.inr ⟨h1, by omega⟩
    | true =>
      cases hcan : ev.cancelObserved with
      | true =>
        have hsr : (workerLoop ts r dl lb (ev :: rest)).snapshots = [] := by
          simp [workerLoop, hdue, hcan]
        have hrr : (workerLoop ts r dl lb (ev :: rest)).record = r := by
          simp [workerLoop, hdue, hcan]
        rw [hsr, hrr]
        refine ⟨?_, rfl, rfl, Or.inl rfl⟩
        intro s hs
        simp at hs
      | false =>
        have hsr : (workerLoop ts r dl lb (ev :: rest)).snapshots =
            checkpointRec r (dl + ev.size) ts lb ev.elapsedSec ::
              (workerLoop ts (checkpointRec r (dl + ev.size) ts lb ev.elapsedSec)
                (dl + ev.size) (dl + ev.size) rest).snapshots := by
          simp [workerLoop, hdue, hcan]
        have hrr : (workerLoop ts r dl lb (ev :: rest)).record =
            (workerLoop ts (checkpointRec r (dl + ev.size) ts lb ev.elapsedSec)
              (dl + ev.size) (dl + ev.size) rest).record := by
          simp [workerLoop, hdue, hcan]
        rw [hsr, hrr, chunkTotal_cons]
        obtain ⟨hsnap, hst, hpid, hrec⟩ :=
          ih (checkpointRec r (dl + ev.size) ts lb ev.elapsedSec)
            (dl + ev.size) (dl + ev.size)
        have hcst : (checkpointRec r (dl + ev.size) ts lb ev.elapsedSec).status
            = r.status := rfl
        have hcpid : (checkpointRec r (dl + ev.size) ts lb ev.elapsedSec).pid
            = r.pid := rfl
        refine ⟨?_, by rw [hst, hcst], by rw [hpid, hcpid], ?_⟩
        · intro s hs
          rcases List.mem_cons.mp hs with h | h
          · subst h
            refine ⟨hcst, hcpid, rfl, ?_⟩
            show dl + ev.size ≤ dl + (ev.size + chunkTotal rest)
            omega
          · obtain ⟨h1, h2, h3, h4⟩ := hsnap s h
            exact ⟨by rw [h1, hcst], by rw [h2, hcpid], h3, by omega⟩
        · rcases hrec with h | ⟨h1, h2⟩
          · rw [h]
            refine Or.inr ⟨rfl, ?_⟩
            show dl + ev.size ≤ dl + (ev.size + chunkTotal rest)
            omega
          · exact Or.inr ⟨h1, by omega⟩

/-- The worker's terminal write clears the pid, lands in a terminal status,
and preserves the byte invariant. -/
theorem terminalRec_facts (rec : Download) (res : Except String Unit) :
    (terminalRec rec res).1.pid = none ∧
    isTerminalStatus (terminalRec rec res).1.status = true ∧
    (bytesInv rec → bytesInv (terminalRec rec res).1) := by
  cases res with
  | ok _ =>
    refine ⟨rfl, rfl, ?_⟩
    intro _
    simp [terminalRec, bytesInv]
  | error e =>
    by_cases hc : e = "Cancelled"
    · refine ⟨by simp [terminalRec, hc], by simp [terminalRec, hc, isTerminalStatus], ?_⟩
      intro h
      simpa [terminalRec, hc, bytesInv] using h
    · refine ⟨by simp [terminalRec, hc], by simp [terminalRec, hc, isTerminalStatus], ?_⟩
      intro h
      simpa [terminalRec, hc, bytesInv] using h

/-- A terminal status is not Downloading. -/
theorem isTerminal_ne_downloading (st : DownloadStatus)
    (h : isTerminalStatus st = true) : ¬ st = .Downloading := by
  cases st <;> simp_all [isTerminalStatus]

/-- Decomposition of a worker execution's persisted snapshots: the initial
Downloading write, checkpoint records (status Downloading, pid the worker's,
total the effective total, bytes bounded by the stream), and one terminal
write computed from a record that is either the initial one or
checkpoint-shaped. -/
theorem workerRun_decomp (dl0 : Download) (env : WorkerEnv) :
    ∃ (res : Except String Unit) (chks : List Download) (recEnd : Download),
      (workerRun (some dl0) env).snapshots =
        workerInitRec dl0 env.wpid :: chks ++ [(terminalRec recEnd res).1] ∧
      (∀ s ∈ chks, s.status = .Downloading ∧ s.pid = some env.wpid ∧
          s.total_bytes = effTotal dl0 env ∧
          s.downloaded_bytes ≤ chunkTotal env.chunks) ∧
      (recEnd.status = .Downloading ∧ recEnd.pid = some env.wpid) ∧
      (recEnd = workerInitRec dl0 env.wpid ∨
        (recEnd.total_bytes = effTotal dl0 env ∧
         recEnd.downloaded_bytes ≤ chunkTotal env.chunks)) := by
  cases hresp : env.resp with
  | error e =>
    refine ⟨.error ("Request failed: " ++ e), [], workerInitRec dl0 env.wpid,
      by simp [workerRun, hresp], ?_, ⟨rfl, rfl⟩, Or.inl rfl⟩
    intro s hs
    simp at hs
  | ok r =>
    cases hok : r.ok with
    | false =>
      refine ⟨.error ("HTTP error: " ++ r.statusText), [], workerInitRec dl0 env.wpid,
        by simp [workerRun, hresp, hok], ?_, ⟨rfl, rfl⟩, Or.inl rfl⟩
      intro s hs
      simp at hs
    | true =>
      cases hcf : env.createFileError with
      | some e =>
        refine ⟨.error ("Failed to create file: " ++ e), [], workerInitRec dl0 env.wpid,
          by simp [workerRun, hresp, hok, hcf], ?_, ⟨rfl, rfl⟩, Or.inl rfl⟩
        intro s hs
        simp at hs
      | none =>
        have hts : effTotal dl0 env = r.contentLength.getD dl0.total_bytes := by
          simp [effTotal, hresp]
        obtain ⟨hsnap, hst, hpid, hrec⟩ :=
          workerLoop_facts (r.contentLength.getD dl0.total_bytes) env.chunks
            (workerInitRec dl0 env.wpid) 0 0
        refine ⟨streamResult
            (workerLoop (r.contentLength.getD dl0.total_bytes)
              (workerInitRec dl0 env.wpid) 0 0 env.chunks) env.streamError,
          (workerLoop (r.contentLength.getD dl0.total_bytes)
            (workerInitRec dl0 env.wpid) 0 0 env.chunks).snapshots,
          (workerLoop (r.contentLength.getD dl0.total_bytes)
            (workerInitRec dl0 env.wpid) 0 0 env.chunks).record,
          by simp [workerRun, hresp, hok, hcf, workerInitRec_total_bytes], ?_, ?_, ?_⟩
        · intro s hs
          obtain ⟨h1, h2, h3, h4⟩ := hsnap s hs
          exact ⟨h1, h2, by rw [h3, hts], by simpa using h4⟩
        · exact ⟨hst, hpid⟩
        · rcases hrec with h | ⟨h1, h2⟩
          · exact Or.inl h
          · exact Or.inr ⟨by rw [h1, hts], by simpa using h2⟩

/-- C3: every record persisted by any operation — creation, spawn, the
worker's initial, checkpoint and terminal writes, dashboard repair and
dashboard cancel — has a pid exactly when its status is Downloading. -/
theorem C3_pid_iff_downloading :
    (∀ ca : CreateArgs, pidInv (createRec ca)) ∧
    (∀ (dl : Download) (cp : Nat), pidInv (spawnRecord dl cp)) ∧
    (∀ (stored : Option Download) (env : WorkerEnv),
        ∀ s ∈ (workerRun stored env).snapshots, pidInv s) ∧
    (∀ (dl : Download) (alive : Bool), (dashboardRepair dl alive).2 = true →
        pidInv (dashboardRepair dl alive).1) ∧
    (∀ dl : Download, (dashboardCancel dl).saved = true →
        pidInv (dashboardCancel dl).record) := by
  refine ⟨?_, ?_, ?_, ?_, ?_⟩
  · intro ca
    simp [pidInv, createRec]
  · intro dl cp
    simp [pidInv, spawnRecord]
  · intro stored env s hs
    cases stored with
    | none => simp [workerRun] at hs
    | some dl0 =>
      obtain ⟨res, chks, recEnd, hshape, hchks, _hre, _hro⟩ := workerRun_decomp dl0 env
      rw [hshape] at hs
      rcases List.mem_cons.mp hs with h | h
      · subst h
        simp [pidInv, workerInitRec]
      · rcases List.mem_append.mp h with h | h
        · obtain ⟨h1, h2, _, _⟩ := hchks s h
          simp [pidInv, h1, h2]
        · rw [List.mem_singleton.mp h]
          obtain ⟨hp, hterm, _⟩ := terminalRec_facts recEnd res
          have hnd := isTerminal_ne_downloading _ hterm
          simp [pidInv, hp, hnd]
  · intro dl alive h
    by_cases hs : dl.status = .Downloading
    · cases hpid : dl.pid with
      | none => simp [dashboardRepair, hs, hpid] at h
      | some p =>
        cases ha : alive with
        | true => simp [dashboardRepair, hs, hpid, ha] at h
        | false =>
          by_cases hc : dl.downloaded_bytes ≥ dl.total_bytes ∧ dl.total_bytes > 0
          · simp [dashboardRepair, hs, hpid, ha, hc, pidInv]
          · simp [dashboardRepair, hs, hpid, ha, hc, pidInv]
    · simp [dashboardCancel, dashboardRepair, hs] at h
  · intro dl h
    by_cases hs : dl.status = .Downloading
    · simp [dashboardCancel, hs, pidInv]
    · simp [dashboardCancel, hs] at h

/-- C3 witness: the cancel write on a live Downloading job satisfies the
pid invariant. -/
theorem C3_pid_iff_downloading_witness :
    pidInv (dashboardCancel c3LiveJob).record :=
  C3_pid_iff_downloading.2.2.2.2 c3LiveJob (by decide)

/-- C2 (amended): every record persisted by creation, spawn, dashboard
repair and dashboard cancel satisfies `downloaded_bytes ≤ total_bytes`
whenever `total_bytes > 0`, provided the record it derives from does; the
worker's writes preserve it provided additionally the stream delivers no
more bytes than the effective total size when that total is non-zero. -/
theorem C2_bytes_invariant :
    (∀ ca : CreateArgs, bytesInv (createRec ca)) ∧
    (∀ (dl : Download) (cp : Nat), bytesInv dl → bytesInv (spawnRecord dl cp)) ∧
    (∀ (dl0 : Download) (env : WorkerEnv), bytesInv dl0 →
        (effTotal dl0 env = 0 ∨ chunkTotal env.chunks ≤ effTotal dl0 env) →
        ∀ s ∈ (workerRun (some dl0) env).snapshots, bytesInv s) ∧
    (∀ (dl : Download) (alive : Bool), bytesInv dl →
        bytesInv (dashboardRepair dl alive).1) ∧
    (∀ dl : Download, bytesInv dl → bytesInv (dashboardCancel dl).record) := by
  refine ⟨?_, ?_, ?_, ?_, ?_⟩
  · intro ca
    simp [bytesInv, createRec]
  · intro dl cp h
    simpa [bytesInv, spawnRecord] using h
  · intro dl0 env h0 hbound s hs
    obtain ⟨res, chks, recEnd, hshape, hchks, _hre, hro⟩ := workerRun_decomp dl0 env
    have hinit : bytesInv (workerInitRec dl0 env.wpid) := by
      simpa [bytesInv, workerInitRec] using h0
    have hend : bytesInv recEnd := by
      rcases hro with h | ⟨h1, h2⟩
      · rw [h]; exact hinit
      · intro hpos
        rw [h1] at hpos ⊢
        rcases hbound with hz | hb
        · omega
        · omega
    rw [hshape] at hs
    rcases List.mem_cons.mp hs with h | h
    · subst h
      exact hinit
    · rcases List.mem_append.mp h with h | h
      · obtain ⟨_, _, h3, h4⟩ := hchks s h
        intro hpos
        rw [h3] at hpos ⊢
        rcases hbound with hz | hb
        · omega
        · omega
      · rw [List.mem_singleton.mp h]
        exact (terminalRec_facts recEnd res).2.2 hend
  · intro dl alive h
    by_cases hs : dl.status = .Downloading
    · cases hpid : dl.pid with
      | none => simpa [dashboardRepair, hs, hpid] using h
      | some p =>
        cases ha : alive with
        | true => simpa [dashboardRepair, hs, hpid, ha] using h
        | false =>
          by_cases hc : dl.downloaded_bytes ≥ dl.total_bytes ∧ dl.total_bytes > 0
          · simpa [dashboardRepair, hs, hpid, ha, hc, bytesInv] using h
          · simpa [dashboardRepair, hs, hpid, ha, hc, bytesInv] using h
    · simpa [dashboardRepair, hs] using h
  · intro dl h
    by_cases hs : dl.status = .Downloading
    · simpa [dashboardCancel, hs, bytesInv] using h
    · simpa [dashboardCancel, hs] using h

/-- C2 counterexample: a worker checkpoint persists
`downloaded_bytes = 200 > total_bytes = 100 > 0` when the GET response
carries no content length and the stream outgrows the stored estimate, so
not every persisted snapshot of that run satisfies the byte invariant. -/
theorem C2_checkpoint_counterexample :
    ((workerRun (some c2Stored) c2Env).snapshots.map
        (fun s => (s.downloaded_bytes, s.total_bytes, s.status)))[1]? =
      some (200, 100, DownloadStatus.Downloading) ∧
    (workerRun (some c2Stored) c2Env).snapshots.all
      (fun s => decide (bytesInv s)) = false := by
  refine ⟨by decide, by decide⟩

/-- C2 witness: the cancel write on a consistent Downloading job keeps the
byte invariant. -/
theorem C2_bytes_invariant_witness :
    bytesInv (dashboardCancel c2LiveJob).record :=
  C2_bytes_invariant.2.2.2.2 c2LiveJob (by decide)

/-- The spawn write's status is Downloading. -/
theorem spawnRecord_status (dl : Download) (cp : Nat) :
    (spawnRecord dl cp).status = .Downloading := rfl

/-- A run of Downloading statuses followed by one terminal status is a
chain. -/
theorem chainOk_downloading_run :
    ∀ (l : List DownloadStatus) (t : DownloadStatus),
      (∀ x ∈ l, x = .Downloading) → isTerminalStatus t = true →
      chainOk (.Downloading :: l ++ [t]) = true := by
  intro l
  induction l with
  | nil =>
    intro t _ ht
    cases t <;> simp_all [chainOk, statusRank, isTerminalStatus]
  | cons x rest ih =>
    intro t hall ht
    have hx : x = DownloadStatus.Downloading := hall x (by simp)
    subst hx
    have h := ih t (fun y hy => hall y (by simp [hy])) ht
    simp only [List.cons_append] at h ⊢
    simp [chainOk, statusRank, isTerminalStatus]
    exact h

/-- The statuses a worker execution persists: one Downloading write, a run
of Downloading checkpoints, and one terminal status. -/
theorem workerRun_statuses (dl0 : Download) (env : WorkerEnv) :
    ∃ (mids : List DownloadStatus) (tstat : DownloadStatus),
      (workerRun (some dl0) env).snapshots.map (·.status) =
        .Downloading :: mids ++ [tstat] ∧
      (∀ x ∈ mids, x = .Downloading) ∧ isTerminalStatus tstat = true := by
  obtain ⟨res, chks, recEnd, hshape, hchks, _, _⟩ := workerRun_decomp dl0 env
  refine ⟨chks.map (·.status), (terminalRec recEnd res).1.status, ?_, ?_,
    (terminalRec_facts recEnd res).2.1⟩
  · rw [hshape]
    simp [workerInitRec]
  · intro x hx
    obtain ⟨s, hs, rfl⟩ := List.mem_map.mp hx
    exact (hchks s hs).1

/-- C4 (amended): in program order — creation, the spawning flow's
Downloading write, then the worker's writes — the persisted statuses form a
subsequence of Pending, Downloading, one terminal, whatever the stream and
cancellation observations; and each dashboard write moves the record it
observed forward: repair persists a terminal status only over an observed
Downloading record, cancel persists Cancelled only over an observed
Downloading record.  (Interleaved dashboard writes between a worker's read
and its next write can still be overwritten, see the counterexample.) -/
theorem C4_status_monotonic :
    (∀ (ca : CreateArgs) (cp : Nat) (env : WorkerEnv),
        chainOk (DownloadStatus.Pending ::
          (spawnRecord (createRec ca) cp).status ::
          (workerRun (some (spawnRecord (createRec ca) cp)) env).snapshots.map
            (·.status)) = true) ∧
    (∀ (dl : Download) (alive : Bool), (dashboardRepair dl alive).2 = true →
        dl.status = .Downloading ∧
        isTerminalStatus (dashboardRepair dl alive).1.status = true) ∧
    (∀ dl : Download, (dashboardCancel dl).saved = true →
        dl.status = .Downloading ∧
        (dashboardCancel dl).record.status = .Cancelled) := by
  refine ⟨?_, ?_, ?_⟩
  · intro ca cp env
    obtain ⟨mids, tstat, hmap, hall, hterm⟩ :=
      workerRun_statuses (spawnRecord (createRec ca) cp) env
    rw [hmap]
    have h := chainOk_downloading_run (DownloadStatus.Downloading :: mids) tstat
      (fun x hx => by
        rcases List.mem_cons.mp hx with h | h
        · exact h
        · exact hall x h) hterm
    simp only [List.cons_append, spawnRecord_status] at h ⊢
    simp [chainOk, statusRank, isTerminalStatus]
    simpa [chainOk, statusRank, isTerminalStatus] using h
  · intro dl alive h
    by_cases hs : dl.status = .Downloading
    · cases hpid : dl.pid with
      | none => simp [dashboardRepair, hs, hpid] at h
      | some p =>
        cases ha : alive with
        | true => simp [dashboardRepair, hs, hpid, ha] at h
        | false =>
          by_cases hc : dl.downloaded_bytes ≥ dl.total_bytes ∧ dl.total_bytes > 0
          · simp [dashboardRepair, hs, hpid, ha, hc, isTerminalStatus]
          · simp [dashboardRepair, hs, hpid, ha, hc, isTerminalStatus]
    · simp [dashboardRepair, hs] at h
  · intro dl h
    by_cases hs : dl.status = .Downloading
    · simp [dashboardCancel, hs]
    · simp [dashboardCancel, hs] at h

/-- C4 witness: cancelling a live Downloading job moves it forward to
Cancelled. -/
theorem C4_status_monotonic_witness :
    c4LiveJob.status = .Downloading ∧
    (dashboardCancel c4LiveJob).record.status = .Cancelled :=
  C4_status_monotonic.2.2 c4LiveJob (by decide)

/-- C4 counterexample: the interleaving create, spawn write, dashboard
cancel, worker load, worker initial write is reachable in the modelled
system and persists the status sequence Pending, Downloading, Cancelled,
Downloading — not a subsequence of the lifecycle chain: the worker's
unconditional non-terminal Downloading write lands on a record whose
persisted status is the terminal Cancelled. -/
theorem C4_interleaving_counterexample :
    Relation.ReflTransGen (SysStep c4Args 7 8) sysInit c4Bad ∧
    c4Bad.log = [.Pending, .Downloading, .Cancelled, .Downloading] ∧
    chainOk c4Bad.log = false ∧
    isTerminalStatus .Cancelled = true := by
  refine ⟨?_, rfl, by decide, rfl⟩
  have h1 : SysStep c4Args 7 8 sysInit
      ⟨some (createRec c4Args), [.Pending], 1, none, false⟩ :=
    SysStep.create sysInit rfl
  have h2 : SysStep c4Args 7 8
      ⟨some (createRec c4Args), [.Pending], 1, none, false⟩
      ⟨some (spawnRecord (createRec c4Args) 7),
       [.Pending, .Downloading], 2, none, false⟩ :=
    SysStep.spawnWrite _ rfl
  have h3 : SysStep c4Args 7 8
      ⟨some (spawnRecord (createRec c4Args) 7),
       [.Pending, .Downloading], 2, none, false⟩
      ⟨some (dashboardCancel (spawnRecord (createRec c4Args) 7)).record,
       [.Pending, .Downloading, .Cancelled], 2, none, false⟩ :=
    SysStep.dashCancel _ (spawnRecord (createRec c4Args) 7) rfl rfl
  have h4 : SysStep c4Args 7 8
      ⟨some (dashboardCancel (spawnRecord (createRec c4Args) 7)).record,
       [.Pending, .Downloading, .Cancelled], 2, none, false⟩
      ⟨some (dashboardCancel (spawnRecord (createRec c4Args) 7)).record,
       [.Pending, .Downloading, .Cancelled], 2,
       some (some (dashboardCancel (spawnRecord (createRec c4Args) 7)).record),
       false⟩ :=
    SysStep.workerLoad _ rfl rfl
  have h5 : SysStep c4Args 7 8
      ⟨some (dashboardCancel (spawnRecord (createRec c4Args) 7)).record,
       [.Pending, .Downloading, .Cancelled], 2,
       some (some (dashboardCancel (spawnRecord (createRec c4Args) 7)).record),
       false⟩ c4Bad :=
    SysStep.workerInitWrite _
      (dashboardCancel (spawnRecord (createRec c4Args) 7)).record rfl rfl
  exact Relation.ReflTransGen.head h1 (Relation.ReflTransGen.head h2
    (Relation.ReflTransGen.head h3 (Relation.ReflTransGen.head h4
      (Relation.ReflTransGen.head h5 Relation.ReflTransGen.refl))))

end LJ
